import Mathlib

/-!
Verification development for the Detection Job & Monitoring Engine
(repository `escvape`): a shallow embedding, in Lean, of the batch job
engine and HTTP endpoints of `src/api_server.py`, the monitoring session
machinery of `src/parental_control_api.py`, and the alert hub of
`src/alerts.py`, together with theorems settling the specification
claims about them.

Modelling conventions:
* Python floats (`time.time()` timestamps, confidences, rates) are
  modelled as rationals `ℚ`.
* The SQLite `batch_jobs` table, keyed by its `id` primary key, is
  modelled as a function `String → Option BatchJob`; `INSERT` is a
  pointwise override (ids are fresh UUIDs) and `UPDATE ... WHERE id = ?`
  is a pointwise `Option.map`.  The append-only `job_results` table is a
  list of rows.
* FastAPI endpoint handlers that wrap their whole body in
  `try: ... except Exception as e: raise HTTPException(500, str(e))`
  are modelled with `Except HTTPError`; the blanket handler is `wrap500`.
  Note that `fastapi.HTTPException` is itself an `Exception`, so an
  `HTTPException` raised inside the `try` body is caught and re-raised
  with status 500 — the model reproduces this faithfully.
* The on-disk `temp_screens` directory is modelled as a list of files
  with unique paths; `cv2.imwrite` is an overwriting write, `os.remove`
  deletes the file with the given path and is a tolerated no-op when the
  path is absent (the `OSError` is caught in the source).
-/

namespace Escvape

/-! ## Batch job engine (`src/api_server.py`) -/

/-- A row of the `batch_jobs` table (`init_jobs_db`): status, total and
processed image counters, optional error message.  The timestamps
(`created_at`, `completed_at`) are not needed by any claim and are
omitted from the model. -/
structure BatchJob where
  status : String
  totalImages : Nat
  processedImages : Nat
  errorMessage : Option String
deriving DecidableEq, Repr

/-- A row of the append-only `job_results` table. -/
structure JobResultItem where
  jobId : String
  filename : String
  cigaretteDetected : Bool
  maxConfidence : ℚ
  detectionDetails : String
deriving DecidableEq, Repr

/-- The `jobs.db` database: `batch_jobs` keyed by primary key,
`job_results` append-only. -/
structure JobsDB where
  batchJobs : String → Option BatchJob
  jobResults : List JobResultItem

/-- The empty database produced by `init_jobs_db`. -/
def emptyDB : JobsDB := ⟨fun _ => none, []⟩

/-- `INSERT INTO batch_jobs` (id is a fresh UUID, so a pointwise
override of the primary-key map). -/
def insertJob (db : JobsDB) (id : String) (j : BatchJob) : JobsDB :=
  { db with batchJobs := fun i => if i = id then some j else db.batchJobs i }

/-- `UPDATE batch_jobs SET status = s, completed_at = ... WHERE id = ?`. -/
def updateStatus (db : JobsDB) (id : String) (s : String) : JobsDB :=
  { db with batchJobs := fun i =>
      if i = id then (db.batchJobs i).map (fun j => { j with status := s })
      else db.batchJobs i }

/-- `UPDATE batch_jobs SET status = s, error_message = m WHERE id = ?`
(the engine-level failure path of `process_batch_job`). -/
def updateStatusError (db : JobsDB) (id : String) (s m : String) : JobsDB :=
  { db with batchJobs := fun i =>
      if i = id then
        (db.batchJobs i).map (fun j => { j with status := s, errorMessage := some m })
      else db.batchJobs i }

/-- `UPDATE batch_jobs SET processed_images = n WHERE id = ?`. -/
def updateProcessed (db : JobsDB) (id : String) (n : Nat) : JobsDB :=
  { db with batchJobs := fun i =>
      if i = id then (db.batchJobs i).map (fun j => { j with processedImages := n })
      else db.batchJobs i }

/-- `INSERT INTO job_results ...`. -/
def addResultRow (db : JobsDB) (r : JobResultItem) : JobsDB :=
  { db with jobResults := db.jobResults ++ [r] }

/-- The `job_results` rows belonging to one job. -/
def rowsForJob (db : JobsDB) (id : String) : List JobResultItem :=
  db.jobResults.filter (fun r => r.jobId == id)

/-- An HTTP error response (`HTTPException(status_code, detail)`). -/
structure HTTPError where
  statusCode : Nat
  detail : String
deriving DecidableEq, Repr

/-- The blanket `except Exception as e: raise HTTPException(500, str(e))`
wrapped around each endpoint body.  `fastapi.HTTPException` subclasses
`Exception` and its `str` is `"{status_code}: {detail}"`, so an
`HTTPException` raised inside the `try` is converted to a 500 whose
detail quotes the original. -/
def wrap500 {α : Type} (x : Except HTTPError α) : Except HTTPError α :=
  match x with
  | .ok a => .ok a
  | .error e => .error ⟨500, s!"{e.statusCode}: {e.detail}"⟩

/-- Response shape of `GET /jobs/{job_id}/status`. -/
structure StatusResponse where
  jobId : String
  status : String
  total : Nat
  processed : Nat
  errorMessage : Option String
deriving DecidableEq, Repr

/-- `get_job_status` (src/api_server.py lines 296–331): look the job up;
404 when absent; otherwise report status and progress — all inside the
blanket 500 wrapper. -/
def get_job_status (db : JobsDB) (jobId : String) : Except HTTPError StatusResponse :=
  wrap500 <|
    match db.batchJobs jobId with
    | none => .error ⟨404, "Job not found"⟩
    | some j =>
        .ok { jobId := jobId, status := j.status, total := j.totalImages,
              processed := j.processedImages, errorMessage := j.errorMessage }

/-- One entry of the results array returned by `get_job_results`. -/
structure ResultEntry where
  filename : String
  cigaretteDetected : Bool
  maxConfidence : ℚ
  detectionDetails : String
deriving DecidableEq, Repr

/-- The computed summary of `get_job_results`. -/
structure ResultsSummary where
  totalImages : Nat
  imagesWithCigarettes : Nat
  detectionRate : ℚ
deriving DecidableEq, Repr

/-- Response shape of `GET /jobs/{job_id}/results`. -/
structure ResultsResponse where
  jobId : String
  results : List ResultEntry
  summary : ResultsSummary
deriving DecidableEq, Repr

/-- `get_job_results` (src/api_server.py lines 334–386): 404 when the id
is unknown, 400 when the status is not `"completed"`, otherwise the rows
for the job plus a summary whose `detection_rate` is
`total_detected / len(results) * 100` (`0` when there are no rows) —
all inside the blanket 500 wrapper. -/
def get_job_results (db : JobsDB) (jobId : String) : Except HTTPError ResultsResponse :=
  wrap500 <|
    match db.batchJobs jobId with
    | none => .error ⟨404, "Job not found"⟩
    | some j =>
        if j.status ≠ "completed" then .error ⟨400, "Job not completed yet"⟩
        else
          let rows := rowsForJob db jobId
          let totalDetected := (rows.filter (fun r => r.cigaretteDetected)).length
          .ok { jobId := jobId,
                results := rows.map (fun r =>
                  { filename := r.filename, cigaretteDetected := r.cigaretteDetected,
                    maxConfidence := r.maxConfidence, detectionDetails := r.detectionDetails }),
                summary := { totalImages := rows.length,
                             imagesWithCigarettes := totalDetected,
                             detectionRate :=
                               if rows.isEmpty then 0
                               else (totalDetected : ℚ) / (rows.length : ℚ) * 100 } }

/-- An uploaded file as seen by `detect_batch_images`: its name and its
declared content type. -/
structure UploadFileM where
  filename : String
  contentType : String
deriving DecidableEq, Repr

/-- Python's `str.startswith`: whether `p` is a prefix of `s`
(computed on the character lists so that concrete instances evaluate). -/
def strStartsWith (s p : String) : Bool :=
  p.data.isPrefixOf s.data

/-- Whether an upload passes the `file.content_type.startswith('image/')`
filter. -/
def isImageFile (f : UploadFileM) : Bool :=
  strStartsWith f.contentType "image/"

/-- Response of `POST /detect/batch`. -/
structure SubmitResponse where
  jobId : String
  status : String
  totalImages : Nat
deriving DecidableEq, Repr

/-- `detect_batch_images` (src/api_server.py lines 223–269): reject more
than 50 files; insert a `batch_jobs` row with `total_images` equal to the
number of ALL uploaded files and status `"processing"`; save only the
files whose content type starts with `image/` as temp files (pairs of
temp filename and original filename) for the background worker; the
response reports `len(temp_files)`.  The fresh UUID `job_id` is a
parameter. -/
def detect_batch_images (db : JobsDB) (jobId : String) (files : List UploadFileM) :
    Except HTTPError (JobsDB × List (String × String) × SubmitResponse) :=
  wrap500 <|
    if files.length > 50 then .error ⟨400, "Maximum 50 files allowed per batch"⟩
    else
      let db1 := insertJob db jobId
        { status := "processing", totalImages := files.length,
          processedImages := 0, errorMessage := none }
      let tempFiles := (files.filter isImageFile).map
        (fun f => (s!"temp_{jobId}_{f.filename}", f.filename))
      .ok (db1, tempFiles, ⟨jobId, "processing", tempFiles.length⟩)

/-- Outcome of one `detector.analyze_image(temp_filename, thr)` call.
`analyze_image` (src/main.py) catches every exception internally and
returns a `(result, error)` pair, so the call itself never raises:
either a result dict (of which the worker uses `cigarette_detected`,
`max_confidence` and the `detections` blob) or an error string. -/
inductive ClassifyOutcome where
  | ok (cigaretteDetected : Bool) (maxConfidence : ℚ) (detectionsBlob : String)
  | err (msg : String)
deriving DecidableEq, Repr

/-- One iteration of the worker loop of `process_batch_job`
(src/api_server.py lines 438–474) over the pair
`(temp_filename, original_filename)`: classify; when there is no error,
insert a `job_results` row; in both cases increment `processed` and
persist it.  (The DB statements and the temp-file removal are modelled
as reliable; the per-item `except` that guards them is therefore never
taken in the model.) -/
def processItem (jobId : String) (classify : String → ClassifyOutcome)
    (acc : JobsDB × Nat) (item : String × String) : JobsDB × Nat :=
  match classify item.1 with
  | .ok det conf blob =>
      let db' := addResultRow acc.1
        { jobId := jobId, filename := item.2, cigaretteDetected := det,
          maxConfidence := conf, detectionDetails := blob }
      (updateProcessed db' jobId (acc.2 + 1), acc.2 + 1)
  | .err _ =>
      (updateProcessed acc.1 jobId (acc.2 + 1), acc.2 + 1)

/-- `process_batch_job` (src/api_server.py lines 430–496): run the worker
loop over every saved temp file (a per-item classification error skips
the result row but still counts towards `processed`), then mark the job
`"completed"`.  The `classify` parameter is the frame-classifier
collaborator, keyed by temp filename. -/
def process_batch_job (db : JobsDB) (jobId : String)
    (tempFiles : List (String × String)) (classify : String → ClassifyOutcome) : JobsDB :=
  updateStatus (tempFiles.foldl (processItem jobId classify) (db, 0)).1 jobId "completed"

/-- The `job_results` rows the worker loop of `process_batch_job`
appends for a given item list: one row per item whose classifier call
returns a result, none for items whose call returns an error. -/
def workerRows (jobId : String) (classify : String → ClassifyOutcome) :
    List (String × String) → List JobResultItem
  | [] => []
  | (t, orig) :: rest =>
      match classify t with
      | .ok det conf blob =>
          { jobId := jobId, filename := orig, cigaretteDetected := det,
            maxConfidence := conf, detectionDetails := blob } :: workerRows jobId classify rest
      | .err _ => workerRows jobId classify rest

/-! ## Monitoring session (`src/parental_control_api.py`, `SelfVideoMonitor`) -/

/-- A file of the `temp_screens` directory.  `sessionId` and `mtime`
model the outcome of the filename checks
(`startswith(f"temp_screenshot_{session_id}_")`, `endswith(".jpg")`) and
of `os.path.getmtime`; `path` is the file name, unique within the
directory. -/
structure ScreenFile where
  sessionId : Nat
  mtime : ℚ
  path : String
deriving DecidableEq, Repr

/-- The temp screenshot file name
`f"temp_screenshot_{self.session_id}_{int(current_time)}.jpg"`. -/
def sessionScreenshotName (sid : Nat) (now : ℚ) : String :=
  let t : Int := ⌊now⌋
  s!"temp_screenshot_{sid}_{t}.jpg"

/-- `os.remove(path)` with the `OSError` caught: delete the file with
that name if present, otherwise leave the directory unchanged. -/
def removeFile (dir : List ScreenFile) (path : String) : List ScreenFile :=
  dir.filter (fun f => f.path ≠ path)

/-- `cv2.imwrite(path, ...)`: an overwriting write — any existing file
with the same name is replaced. -/
def writeFile (dir : List ScreenFile) (f : ScreenFile) : List ScreenFile :=
  removeFile dir f.path ++ [f]

/-- The ordering used by
`screenshot_files.sort(key=lambda x: x[1], reverse=True)`:
newest (largest mtime) first. -/
def newestFirst (a b : ScreenFile) : Prop := b.mtime ≤ a.mtime

instance : DecidableRel newestFirst := fun a b =>
  inferInstanceAs (Decidable (b.mtime ≤ a.mtime))

/-- `SelfVideoMonitor._cleanup_old_screenshots` (src/parental_control_api.py
lines 438–470): collect this session's screenshot files, sort them by
modification time descending, and when there are more than
`maxScreens` delete all but the first `maxScreens`.  Each `os.remove`
failure is caught (a missing file simply stays absent), so the pass
never raises; in the model deletion of a present file always succeeds. -/
def cleanup_old_screenshots (sid : Nat) (maxScreens : Nat)
    (dir : List ScreenFile) : List ScreenFile :=
  let files := dir.filter (fun f => f.sessionId == sid)
  let sorted := files.insertionSort newestFirst
  if sorted.length > maxScreens then
    let toDelete := (sorted.drop maxScreens).map (fun f => f.path)
    dir.filter (fun f => !(toDelete.contains f.path))
  else dir

/-- The fields of the `analyze_image` result dict that
`_analyze_screenshot` and `_send_self_alert` read. -/
structure AnalysisResult where
  smokingDetected : Bool
  vapingDetected : Bool
  maxConfidence : ℚ
deriving DecidableEq, Repr

/-- Outcome of the `self.detector.analyze_image(temp_path)` call inside
`_analyze_screenshot`: an error string, a `None` result, or a result
dict. -/
inductive AnalyzeOutcome where
  | ok (r : AnalysisResult)
  | err (msg : String)
  | noResult
deriving DecidableEq, Repr

/-- The mutable per-monitor state of `SelfVideoMonitor.__init__`
(src/parental_control_api.py lines 110–117). -/
structure MonitorState where
  sessionId : Nat
  isRunning : Bool
  lastDetectionTime : ℚ
  detectionCooldown : ℚ
  maxScreenshots : Nat
deriving DecidableEq, Repr

/-- A freshly constructed `SelfVideoMonitor(session_id, settings)`:
not running, `last_detection_time = 0`, cooldown 30 seconds, at most 5
retained screenshots. -/
def initMonitor (sid : Nat) : MonitorState :=
  { sessionId := sid, isRunning := false, lastDetectionTime := 0,
    detectionCooldown := 30, maxScreenshots := 5 }

/-- The WebSocket alert message built in `_send_self_alert`
(the emoji prefix of `alert_type` is stripped and lowercased before it
becomes `detection_type`).  `msgType` and `label` are the constants
`"detection"` and `"Vaping and Smoking Detection"`. -/
structure AlertMsg where
  msgType : String
  label : String
  detectionType : String
  maxConfidence : ℚ
  timestamp : ℚ
  screenshotPath : String
deriving DecidableEq, Repr

/-- The `detection_type` string computed from the detection flags in
`_analyze_screenshot` / `_send_self_alert`. -/
def detectionTypeString (r : AnalysisResult) : String :=
  if r.smokingDetected && r.vapingDetected then "smoking & vaping"
  else if r.smokingDetected then "smoking"
  else if r.vapingDetected then "vaping"
  else "smoking/vaping"

/-- `SelfVideoMonitor._analyze_screenshot` (src/parental_control_api.py
lines 359–436), one analyzed tick at wall-clock time `now`, with the
classifier outcome supplied by the collaborator:

1. if `now - last_detection_time < detection_cooldown`, return at once
   (nothing written, state unchanged);
2. otherwise write the temp screenshot file;
3. on an analysis error or a `None` result, remove the temp file and
   return — `last_detection_time` is NOT updated on these paths;
4. on a result: if smoking or vaping was detected, send the alert,
   keep the file and run the retention cleanup; otherwise remove the
   temp file; in BOTH cases fall through to
   `self.last_detection_time = current_time`.

Returns the new monitor state, the new directory contents, and the
broadcast alert message, if any. -/
def analyzeScreenshot (st : MonitorState) (dir : List ScreenFile) (now : ℚ)
    (outcome : AnalyzeOutcome) : MonitorState × List ScreenFile × Option AlertMsg :=
  if now - st.lastDetectionTime < st.detectionCooldown then (st, dir, none)
  else
    let tempPath := sessionScreenshotName st.sessionId now
    let dir1 := writeFile dir ⟨st.sessionId, now, tempPath⟩
    match outcome with
    | .err _ => (st, removeFile dir1 tempPath, none)
    | .noResult => (st, removeFile dir1 tempPath, none)
    | .ok r =>
        if r.smokingDetected || r.vapingDetected then
          ({ st with lastDetectionTime := now },
           cleanup_old_screenshots st.sessionId st.maxScreenshots dir1,
           some { msgType := "detection", label := "Vaping and Smoking Detection",
                  detectionType := detectionTypeString r,
                  maxConfidence := r.maxConfidence, timestamp := now,
                  screenshotPath := tempPath })
        else
          ({ st with lastDetectionTime := now }, removeFile dir1 tempPath, none)

/-- Run a sequence of analyzed ticks `(time, classifier outcome)` through
`_analyze_screenshot`, collecting every broadcast alert in order. -/
def runTicks (st : MonitorState) (dir : List ScreenFile) :
    List (ℚ × AnalyzeOutcome) → List AlertMsg
  | [] => []
  | (now, o) :: rest =>
      match analyzeScreenshot st dir now o with
      | (st', dir', alert) => alert.toList ++ runTicks st' dir' rest

/-- The timestamps of the alerts promoted along a trace of analyzed
ticks. -/
def alertTimes (st : MonitorState) (dir : List ScreenFile)
    (ticks : List (ℚ × AnalyzeOutcome)) : List ℚ :=
  (runTicks st dir ticks).map (fun a => a.timestamp)

/-- A classifier outcome that reports smoking content (a positive
classification). -/
def positiveOutcome : AnalyzeOutcome :=
  .ok { smokingDetected := true, vapingDetected := false, maxConfidence := 9 / 10 }

/-- A monitor on which `start_monitoring` has been called: the
`is_running` flag is set (and the daemon loop thread spawned). -/
def startedMonitor (sid : Nat) : MonitorState :=
  { initMonitor sid with isRunning := true }

/-! ## Session registry (`start_monitoring` / `stop_monitoring` endpoints,
src/parental_control_api.py lines 545–601) -/

/-- One `SelfVideoMonitor` that has been constructed and started by the
`/start-monitoring` endpoint.  `deviceId` records which device's request
created it (the request's `deviceId`); `monitor` is its mutable state,
whose `isRunning` flag is what the spawned daemon loop polls. -/
structure EngineMonitor where
  deviceId : String
  monitor : MonitorState
deriving DecidableEq, Repr

/-- The server-wide monitoring state: the autoincrement counter of the
`monitoring_sessions` table, every monitor object a start request ever
created (each with its own daemon thread), and the
`active_monitoring_sessions` registry mapping a device id to the
session id of the monitor stored for it (a Python dict: at most one
entry per device, assignment overwrites). -/
structure Engine where
  nextSessionId : Nat
  monitors : List EngineMonitor
  registry : List (String × Nat)

/-- The initial server state: empty tables, empty registry; SQLite
autoincrement ids start at 1. -/
def engineInit : Engine := ⟨1, [], []⟩

/-- Dict read `active_monitoring_sessions.get(device_id)`. -/
def registryLookup (e : Engine) (dev : String) : Option Nat :=
  (e.registry.find? (fun p => p.1 == dev)).map Prod.snd

/-- Dict assignment `active_monitoring_sessions[device_id] = {...}`:
replace any existing entry for the device. -/
def registrySet (e : Engine) (dev : String) (sid : Nat) : Engine :=
  { e with registry := (dev, sid) :: e.registry.filter (fun p => p.1 ≠ dev) }

/-- Dict deletion `del active_monitoring_sessions[device_id]`. -/
def registryErase (e : Engine) (dev : String) : Engine :=
  { e with registry := e.registry.filter (fun p => p.1 ≠ dev) }

/-- `POST /self-monitoring/start-monitoring`
(src/parental_control_api.py lines 545–575): insert a new
`monitoring_sessions` row (fresh autoincrement id), construct a
`SelfVideoMonitor` for it, call its `start_monitoring` (which sets
`is_running = True` and spawns a new daemon loop thread,
lines 119–122), and store it in the registry under the device id —
with no check whatever for an already-active session of that device. -/
def startMonitoringEndpoint (e : Engine) (dev : String) : Engine :=
  let sid := e.nextSessionId
  let started := { initMonitor sid with isRunning := true }
  let e1 := { e with nextSessionId := sid + 1,
                     monitors := e.monitors ++ [⟨dev, started⟩] }
  registrySet e1 dev sid

/-- `POST /self-monitoring/stop-monitoring`
(src/parental_control_api.py lines 577–601): when the device has a
registry entry, call `stop_monitoring()` on the monitor stored there
(clearing its `is_running` flag, lines 124–126) and delete the entry;
otherwise do nothing (idempotent success). -/
def stopMonitoringEndpoint (e : Engine) (dev : String) : Engine :=
  match registryLookup e dev with
  | none => e
  | some sid =>
      let e1 := { e with monitors := e.monitors.map (fun m =>
        if m.monitor.sessionId = sid then
          { m with monitor := { m.monitor with isRunning := false } }
        else m) }
      registryErase e1 dev

/-- How many monitor loops created for device `dev` currently have their
`is_running` flag set (each such monitor owns one live daemon loop). -/
def runningLoopsFor (e : Engine) (dev : String) : Nat :=
  (e.monitors.filter (fun m => m.deviceId == dev && m.monitor.isRunning)).length

/-- Engine well-formedness: the autoincrement counter is strictly above
every session id handed out so far (SQLite autoincrement guarantees
this). -/
def EngineWF (e : Engine) : Prop :=
  ∀ m ∈ e.monitors, m.monitor.sessionId < e.nextSessionId

/-! ## The monitor loop as a timed machine
(`SelfVideoMonitor._monitor_loop`, src/parental_control_api.py
lines 128–151)

The loop body is `while self.is_running: <tick>; time.sleep(5)`.  We
model it as a small-step machine: `checking` observes the flag (the
only point where it is read), `ticking` performs the capture/classify/
alert work of one iteration, `sleeping` performs the `time.sleep(5)`
call, which always runs to completion — the flag is not consulted
during it.  (`except: time.sleep(10)` only lengthens the sleep; the
model uses the normal 5-second path.)  `stop_monitoring` merely clears
the flag and returns, it does not join the thread. -/

inductive LoopPhase where
  | checking
  | ticking
  | sleeping
  | exited
deriving DecidableEq, Repr

/-- State of one monitor loop thread: the `is_running` flag shared with
`stop_monitoring`, the current control point, the number of completed
capture/classify/alert iterations, and the wall clock (seconds). -/
structure LoopState where
  running : Bool
  phase : LoopPhase
  ticksDone : Nat
  clock : ℚ
deriving DecidableEq, Repr

/-- The `time.sleep(5)` poll interval. -/
def pollInterval : ℚ := 5

/-- One step of the loop machine.  The flag is read only in `checking`;
a sleep, once begun, advances the clock by the whole `pollInterval`
regardless of the flag. -/
def loopStep (s : LoopState) : LoopState :=
  match s.phase with
  | .checking => if s.running then { s with phase := .ticking }
                 else { s with phase := .exited }
  | .ticking => { s with phase := .sleeping, ticksDone := s.ticksDone + 1 }
  | .sleeping => { s with phase := .checking, clock := s.clock + pollInterval }
  | .exited => s

/-- Run the loop machine for `n` steps. -/
def loopRun (s : LoopState) : Nat → LoopState
  | 0 => s
  | n + 1 => loopRun (loopStep s) n

/-- `SelfVideoMonitor.stop_monitoring` (lines 124–126): set
`self.is_running = False` and return immediately — the loop thread is
neither joined nor interrupted, so its phase (in particular a sleep in
progress) is untouched. -/
def stopFlag (s : LoopState) : LoopState := { s with running := false }

/-! ## Alert hub (`src/alerts.py`) -/

/-- The `AlertManager` subscriber set: the `connections` list of
WebSocket handles (modelled by identifiers). -/
structure AlertHub where
  connections : List Nat
deriving DecidableEq, Repr

/-- `AlertManager.disconnect` (src/alerts.py lines 14–16): remove the
first occurrence of the handle if present. -/
def hubDisconnect (h : AlertHub) (ws : Nat) : AlertHub :=
  if ws ∈ h.connections then { h with connections := h.connections.erase ws }
  else h

/-- The send loop of `AlertManager.broadcast` (src/alerts.py
lines 18–26): iterate over a snapshot `list(self.connections)`; each
`ws.send_json` either succeeds (the message is delivered to `ws`) or
raises (modelled by the `fails` oracle), in which case the exception is
caught and `ws` is appended to `stale`.  Returns the delivered handles
and the stale handles, each in iteration order. -/
def broadcastPass (snapshot : List Nat) (fails : Nat → Bool) : List Nat × List Nat :=
  (snapshot.filter (fun ws => !(fails ws)), snapshot.filter fails)

/-- `AlertManager.broadcast` (src/alerts.py lines 18–26): run the send
loop over a snapshot of `connections`, then `disconnect` every stale
handle.  The result is the hub after removal together with the handles
that received the message; no failure escapes to the caller. -/
def broadcast (h : AlertHub) (fails : Nat → Bool) : AlertHub × List Nat :=
  let (delivered, stale) := broadcastPass h.connections fails
  (stale.foldl hubDisconnect h, delivered)

/-- `broadcast_from_thread` (src/alerts.py lines 38–46): when the
registered event loop is present and running, hand the broadcast over
to it; otherwise drop the alert silently.  Any exception from the
handoff is swallowed, so nothing is ever surfaced to the publishing
thread. -/
def broadcast_from_thread (loopRunning : Bool) (h : AlertHub)
    (fails : Nat → Bool) : AlertHub × List Nat :=
  if loopRunning then broadcast h fails else (h, [])

/-! # Theorems -/

/-- Claim C1 (code bug). The spec says an unknown job id on
`GET /jobs/{job_id}/status` or `GET /jobs/{job_id}/results` fails with
NotFound surfaced as a client error, and that `GetResults` on an
uncompleted job fails with InvalidState surfaced as a client error.
The code raises `HTTPException(404, "Job not found")` /
`HTTPException(400, "Job not completed yet")` inside a `try` whose
blanket `except Exception as e: raise HTTPException(500, str(e))`
catches the `HTTPException` (it subclasses `Exception`) and re-raises
it with status 500 — so at a concrete unknown id, and at a concrete
still-processing job, every one of these failures actually surfaces as
an HTTP 500 server error quoting the intended client error in its
detail string. -/
theorem notFound_and_invalidState_surface_as_500 :
    get_job_status emptyDB "deadbeef" = .error ⟨500, "404: Job not found"⟩ ∧
    get_job_results emptyDB "deadbeef" = .error ⟨500, "404: Job not found"⟩ ∧
    get_job_results (insertJob emptyDB "j1"
        { status := "processing", totalImages := 3, processedImages := 1,
          errorMessage := none }) "j1"
      = .error ⟨500, "400: Job not completed yet"⟩ :=
  ⟨rfl, rfl, rfl⟩

/-- Claim C2, counterexample. The claim states that an analyzed event
with no matched category is discarded without changing the last-alert
timestamp.  Concretely: a monitor with `last_detection_time = 0` and
cooldown 30 analyzes a tick at time 100 whose result matches no
category (no smoking, no vaping); no alert is emitted and the artifact
is discarded, yet `_analyze_screenshot` falls through to
`self.last_detection_time = current_time` and the timestamp becomes
100. -/
theorem unmatched_tick_resets_timestamp :
    (analyzeScreenshot (startedMonitor 7) [] 100
        (.ok ⟨false, false, 1 / 2⟩)).2.2 = none ∧
    (analyzeScreenshot (startedMonitor 7) [] 100
        (.ok ⟨false, false, 1 / 2⟩)).1.lastDetectionTime = 100 ∧
    (100 : ℚ) ≠ (startedMonitor 7).lastDetectionTime := by
  refine ⟨?_, ?_, ?_⟩ <;>
    norm_num [analyzeScreenshot, startedMonitor, initMonitor, writeFile,
      removeFile, sessionScreenshotName]

/-- Claim C3, counterexample. The claim states that calling Start while
a session for the same id is already Running is an idempotent no-op and
does not create a second concurrent loop.  Concretely: starting
monitoring twice for device `"dev"` from the initial server state
leaves TWO monitors with their `is_running` flags set — two concurrent
daemon loops for the one device id — and the subsequent stop request
clears only the one the registry still points to, leaving the orphaned
first loop running with no way to stop it. -/
theorem second_start_spawns_second_loop :
    runningLoopsFor (startMonitoringEndpoint
        (startMonitoringEndpoint engineInit "dev") "dev") "dev" = 2 ∧
    runningLoopsFor (stopMonitoringEndpoint (startMonitoringEndpoint
        (startMonitoringEndpoint engineInit "dev") "dev") "dev") "dev" = 1 :=
  ⟨rfl, rfl⟩

/-- Claim C4, counterexample. The claim states that the inter-tick
sleep is interruptible so that a stop completes promptly rather than
waiting out a full poll interval.  Concretely: a loop whose
`is_running` flag is already cleared but which is inside its
`time.sleep(5)` does not exit early — after one machine step it has
consumed the entire 5-second interval (the clock advanced by the full
`pollInterval`) and only then observes the flag and exits; it is never
in the exited phase before the full sleep has elapsed. -/
theorem stopped_loop_still_sleeps_full_interval :
    (loopRun ⟨false, .sleeping, 3, 0⟩ 1).phase = .checking ∧
    (loopRun ⟨false, .sleeping, 3, 0⟩ 1).clock = 5 ∧
    (loopRun ⟨false, .sleeping, 3, 0⟩ 2).phase = .exited ∧
    (loopRun ⟨false, .sleeping, 3, 0⟩ 2).clock = 5 ∧
    pollInterval = 5 := by
  refine ⟨rfl, ?_, rfl, ?_, rfl⟩ <;> norm_num [loopRun, loopStep, pollInterval]

/-- Claim C2, amended. On every analyzed tick, the last-alert timestamp
is reset to the current time exactly when the tick is outside the
cooldown window AND the analysis completes with a result — whether or
not any category matched; an analyzed event with no matched category is
discarded (no alert is emitted, as the second conjunct shows) but its
timestamp update still happens.  Only cooldown-suppressed ticks and
failed analyses (error or `None` result) leave the timestamp
unchanged.  The alert is emitted exactly when the tick is outside the
cooldown window and the result carries a matched category. -/
theorem analyzed_result_always_resets_timestamp (st : MonitorState)
    (dir : List ScreenFile) (now : ℚ) (o : AnalyzeOutcome) :
    (analyzeScreenshot st dir now o).1.lastDetectionTime =
      (if now - st.lastDetectionTime < st.detectionCooldown then st.lastDetectionTime
       else match o with
            | .ok _ => now
            | .err _ => st.lastDetectionTime
            | .noResult => st.lastDetectionTime) ∧
    (analyzeScreenshot st dir now o).2.2.isSome =
      (!(decide (now - st.lastDetectionTime < st.detectionCooldown)) &&
       match o with
       | .ok r => r.smokingDetected || r.vapingDetected
       | .err _ => false
       | .noResult => false) := by
  unfold analyzeScreenshot
  by_cases hc : now - st.lastDetectionTime < st.detectionCooldown
  · cases o <;> simp [hc]
  · cases o with
    | ok r =>
        by_cases hm : (r.smokingDetected || r.vapingDetected) = true <;>
          simp [hc, hm]
    | err m => simp [hc]
    | noResult => simp [hc]

theorem loopRun_succ (s : LoopState) (n : Nat) :
    loopRun s (n + 1) = loopRun (loopStep s) n := rfl

theorem loopRun_add (s : LoopState) (a b : Nat) :
    loopRun s (a + b) = loopRun (loopRun s a) b := by
  induction a generalizing s with
  | zero => simp [loopRun]
  | succ n ih =>
      have e : n + 1 + b = n + b + 1 := by omega
      rw [e, loopRun_succ, loopRun_succ, ih]

theorem loopStep_exited (s : LoopState) (h : s.phase = .exited) : loopStep s = s := by
  simp [loopStep, h]

theorem loopRun_exited (s : LoopState) (h : s.phase = .exited) (n : Nat) :
    loopRun s n = s := by
  induction n with
  | zero => rfl
  | succ m ih =>
      calc loopRun s (m + 1) = loopRun s m := by
              rw [loopRun_succ, loopStep_exited s h]
        _ = s := ih

theorem loopStep_running (s : LoopState) : (loopStep s).running = s.running := by
  cases hp : s.phase <;> simp [loopStep, hp]
  split <;> rfl

theorem loopRun_ticks_of_stopped : ∀ (n : Nat) (s : LoopState), s.running = false →
    (loopRun s n).ticksDone ≤ s.ticksDone + (if s.phase = .ticking then 1 else 0)
  | 0, s, _ => by simp [loopRun]
  | n + 1, s, h => by
      rw [loopRun_succ]
      have h' : (loopStep s).running = false := by rw [loopStep_running]; exact h
      have ih := loopRun_ticks_of_stopped n (loopStep s) h'
      cases hp : s.phase with
      | checking => simp [loopStep, hp, h] at ih ⊢; omega
      | ticking => simp [loopStep, hp] at ih ⊢; omega
      | sleeping => simp [loopStep, hp] at ih ⊢; omega
      | exited => simp [loopStep, hp] at ih ⊢; omega

theorem loopRun_three_exits (s : LoopState) (h : s.running = false) :
    (loopRun s 3).phase = .exited := by
  have e : loopRun s 3 = loopStep (loopStep (loopStep s)) := rfl
  rw [e]
  cases hp : s.phase <;> simp [loopStep, hp, h]

/-- Claim C4, amended. After `stop_monitoring` clears the flag, the
loop completes at most the one iteration already in flight (its tick
count grows by at most one) and reaches the exited phase within three
machine steps — so ticks never continue indefinitely after Stop
returns.  However, the inter-tick `time.sleep(5)` is NOT interruptible:
a sleep in progress always advances the clock by the whole
`pollInterval` before the flag can next be observed (third conjunct),
and `stop_monitoring` itself merely clears the flag and returns at
once without joining the thread (fourth conjunct) — so the loop may
persist a full poll interval after Stop returns, rather than Stop's
promptness being obtained by an interruptible sleep. -/
theorem stop_bounds_loop_but_sleep_not_interruptible :
    (∀ (s : LoopState) (n : Nat), s.running = false →
        (loopRun s n).ticksDone ≤ s.ticksDone + 1) ∧
    (∀ (s : LoopState) (n : Nat), s.running = false → 3 ≤ n →
        (loopRun s n).phase = .exited) ∧
    (∀ s : LoopState, s.phase = .sleeping →
        (loopStep s).clock = s.clock + pollInterval ∧
        (loopStep s).phase = .checking) ∧
    (∀ s : LoopState, (stopFlag s).running = false ∧
        (stopFlag s).phase = s.phase ∧ (stopFlag s).clock = s.clock) := by
  refine ⟨?_, ?_, ?_, ?_⟩
  · intro s n h
    have := loopRun_ticks_of_stopped n s h
    split at this <;> omega
  · intro s n h hn
    obtain ⟨k, rfl⟩ : ∃ k, n = 3 + k := ⟨n - 3, by omega⟩
    rw [loopRun_add, loopRun_exited _ (loopRun_three_exits s h)]
    exact loopRun_three_exits s h
  · intro s hp
    constructor <;> simp [loopStep, hp]
  · intro s
    exact ⟨rfl, rfl, rfl⟩

/-- Witness for `stop_bounds_loop_but_sleep_not_interruptible` at
concrete inputs: a stopped loop caught mid-tick gains at most one tick
and is exited after 10 steps, and a step from the sleeping phase adds
the whole poll interval to the clock. -/
theorem stop_bounds_loop_witness :
    (loopRun ⟨false, .ticking, 0, 0⟩ 10).ticksDone ≤ 0 + 1 ∧
    (loopRun ⟨false, .ticking, 0, 0⟩ 10).phase = .exited ∧
    (loopStep ⟨false, .sleeping, 0, 0⟩).clock = 0 + pollInterval ∧
    (loopStep ⟨false, .sleeping, 0, 0⟩).phase = .checking :=
  ⟨stop_bounds_loop_but_sleep_not_interruptible.1 ⟨false, .ticking, 0, 0⟩ 10 rfl,
   stop_bounds_loop_but_sleep_not_interruptible.2.1 ⟨false, .ticking, 0, 0⟩ 10 rfl
     (by norm_num),
   (stop_bounds_loop_but_sleep_not_interruptible.2.2.1 ⟨false, .sleeping, 0, 0⟩ rfl).1,
   (stop_bounds_loop_but_sleep_not_interruptible.2.2.1 ⟨false, .sleeping, 0, 0⟩ rfl).2⟩

theorem monitors_map_stop_untouched (e : Engine) (sid : Nat)
    (hwf : ∀ m ∈ e.monitors, m.monitor.sessionId ≠ sid) :
    e.monitors.map (fun m =>
      if m.monitor.sessionId = sid then
        { m with monitor := { m.monitor with isRunning := false } } else m) = e.monitors := by
  have h : ∀ m ∈ e.monitors, (fun m : EngineMonitor =>
      if m.monitor.sessionId = sid then
        { m with monitor := { m.monitor with isRunning := false } } else m) m = id m := by
    intro m hm
    simp only [id]
    rw [if_neg (hwf m hm)]
  rw [List.map_congr_left h, List.map_id]

theorem stopMonitoringEndpoint_eq_of_lookup (e : Engine) (dev : String) (sid : Nat)
    (h : registryLookup e dev = some sid) :
    stopMonitoringEndpoint e dev =
      registryErase { e with monitors := e.monitors.map (fun m =>
        if m.monitor.sessionId = sid then
          { m with monitor := { m.monitor with isRunning := false } } else m) } dev := by
  unfold stopMonitoringEndpoint
  rw [h]

/-- Claim C3, amended. Start is not idempotent while a session for the
device is already running, and the one-loop-per-id invariant fails:
each `/start-monitoring` call unconditionally inserts a fresh session,
spawns a fresh loop and overwrites the registry entry for the device,
so after a second Start TWO loops run concurrently for the device
(first conjunct); and because the registry now only points at the
newer session, a Stop clears only that one, permanently orphaning the
first still-running loop (second conjunct). -/
theorem start_while_running_spawns_new_loop (e : Engine) (dev : String)
    (hwf : EngineWF e) :
    runningLoopsFor (startMonitoringEndpoint (startMonitoringEndpoint e dev) dev) dev
      = runningLoopsFor e dev + 2 ∧
    runningLoopsFor (stopMonitoringEndpoint
        (startMonitoringEndpoint (startMonitoringEndpoint e dev) dev) dev) dev
      = runningLoopsFor e dev + 1 := by
  constructor
  · simp [startMonitoringEndpoint, registrySet, runningLoopsFor, List.filter_append,
      initMonitor]
  · have hlook : registryLookup (startMonitoringEndpoint
        (startMonitoringEndpoint e dev) dev) dev = some (e.nextSessionId + 1) := by
      simp [registryLookup, startMonitoringEndpoint, registrySet]
    have huntouched := monitors_map_stop_untouched e (e.nextSessionId + 1)
      (fun m hm => by have := hwf m hm; omega)
    rw [stopMonitoringEndpoint_eq_of_lookup _ _ _ hlook]
    simp [registryErase, runningLoopsFor, startMonitoringEndpoint, registrySet,
      List.map_append, List.filter_append, huntouched, initMonitor]

/-- Witness for `start_while_running_spawns_new_loop` at the initial
server state and device `"dev"`. -/
theorem start_while_running_witness :
    runningLoopsFor (startMonitoringEndpoint
        (startMonitoringEndpoint engineInit "dev") "dev") "dev"
      = runningLoopsFor engineInit "dev" + 2 ∧
    runningLoopsFor (stopMonitoringEndpoint (startMonitoringEndpoint
        (startMonitoringEndpoint engineInit "dev") "dev") "dev") "dev"
      = runningLoopsFor engineInit "dev" + 1 :=
  start_while_running_spawns_new_loop engineInit "dev"
    (by intro m hm; simp [engineInit] at hm)

theorem workerFold_spec (jobId : String) (classify : String → ClassifyOutcome)
    (items : List (String × String)) :
    ∀ (db : JobsDB) (p : Nat) (j : BatchJob),
      db.batchJobs jobId = some j → j.processedImages = p →
      (items.foldl (processItem jobId classify) (db, p)).2 = p + items.length ∧
      (items.foldl (processItem jobId classify) (db, p)).1.batchJobs jobId
        = some { j with processedImages := p + items.length } ∧
      (∀ i, i ≠ jobId →
        (items.foldl (processItem jobId classify) (db, p)).1.batchJobs i = db.batchJobs i) ∧
      (items.foldl (processItem jobId classify) (db, p)).1.jobResults
        = db.jobResults ++ workerRows jobId classify items := by
  induction items with
  | nil =>
      intro db p j hj hp
      obtain ⟨s, tot, pi, em⟩ := j
      simp only at hp
      subst hp
      refine ⟨by simp, ?_, fun i _ => rfl, by simp [workerRows]⟩
      simpa using hj
  | cons item rest ih =>
      obtain ⟨t, orig⟩ := item
      intro db p j hj hp
      rw [List.foldl_cons]
      cases hc : classify t with
      | ok det conf blob =>
          have hstep : processItem jobId classify (db, p) (t, orig) =
              (updateProcessed (addResultRow db
                { jobId := jobId, filename := orig, cigaretteDetected := det,
                  maxConfidence := conf, detectionDetails := blob }) jobId (p + 1), p + 1) := by
            simp [processItem, hc]
          rw [hstep]
          have hj' : (updateProcessed (addResultRow db
              { jobId := jobId, filename := orig, cigaretteDetected := det,
                maxConfidence := conf, detectionDetails := blob }) jobId (p + 1)).batchJobs jobId
              = some { j with processedImages := p + 1 } := by
            simp [updateProcessed, addResultRow, hj]
          have ihh := ih _ (p + 1) { j with processedImages := p + 1 } hj' rfl
          refine ⟨?_, ?_, ?_, ?_⟩
          · rw [ihh.1]; simp; omega
          · rw [ihh.2.1]
            have e : p + 1 + rest.length = p + (rest.length + 1) := by omega
            simp [e]
          · intro i hi
            rw [ihh.2.2.1 i hi]
            simp [updateProcessed, addResultRow, hi]
          · rw [ihh.2.2.2]
            simp [updateProcessed, addResultRow, workerRows, hc]
      | err m =>
          have hstep : processItem jobId classify (db, p) (t, orig) =
              (updateProcessed db jobId (p + 1), p + 1) := by
            simp [processItem, hc]
          rw [hstep]
          have hj' : (updateProcessed db jobId (p + 1)).batchJobs jobId
              = some { j with processedImages := p + 1 } := by
            simp [updateProcessed, hj]
          have ihh := ih _ (p + 1) { j with processedImages := p + 1 } hj' rfl
          refine ⟨?_, ?_, ?_, ?_⟩
          · rw [ihh.1]; simp; omega
          · rw [ihh.2.1]
            have e : p + 1 + rest.length = p + (rest.length + 1) := by omega
            simp [e]
          · intro i hi
            rw [ihh.2.2.1 i hi]
            simp [updateProcessed, hi]
          · rw [ihh.2.2.2]
            simp [updateProcessed, workerRows, hc]

theorem process_batch_job_spec (db : JobsDB) (jobId : String)
    (items : List (String × String)) (classify : String → ClassifyOutcome)
    (j : BatchJob) (hj : db.batchJobs jobId = some j) (hp : j.processedImages = 0) :
    (process_batch_job db jobId items classify).batchJobs jobId
      = some { j with status := "completed", processedImages := items.length } ∧
    (∀ i, i ≠ jobId →
      (process_batch_job db jobId items classify).batchJobs i = db.batchJobs i) ∧
    (process_batch_job db jobId items classify).jobResults
      = db.jobResults ++ workerRows jobId classify items := by
  have hf := workerFold_spec jobId classify items db 0 j hj hp
  unfold process_batch_job
  refine ⟨?_, ?_, ?_⟩
  · simp [updateStatus, hf.2.1]
  · intro i hi
    simp [updateStatus, hi, hf.2.2.1 i hi]
  · simp [updateStatus, hf.2.2.2]

theorem workerRows_jobId_eq (jobId : String) (classify : String → ClassifyOutcome) :
    ∀ (items : List (String × String)) (r : JobResultItem),
      r ∈ workerRows jobId classify items → r.jobId = jobId := by
  intro items
  induction items with
  | nil => intro r hr; simp [workerRows] at hr
  | cons item rest ih =>
      obtain ⟨t, orig⟩ := item
      intro r hr
      rw [workerRows] at hr
      cases hc : classify t with
      | ok det conf blob =>
          rw [hc] at hr
          rcases List.mem_cons.mp hr with rfl | hr'
          · rfl
          · exact ih r hr'
      | err m =>
          rw [hc] at hr
          exact ih r hr

theorem workerRows_filename_mem (jobId : String) (classify : String → ClassifyOutcome) :
    ∀ (items : List (String × String)) (r : JobResultItem),
      r ∈ workerRows jobId classify items → r.filename ∈ items.map Prod.snd := by
  intro items
  induction items with
  | nil => intro r hr; simp [workerRows] at hr
  | cons item rest ih =>
      obtain ⟨t, orig⟩ := item
      intro r hr
      rw [workerRows] at hr
      cases hc : classify t with
      | ok det conf blob =>
          rw [hc] at hr
          rcases List.mem_cons.mp hr with rfl | hr'
          · simp
          · simp only [List.map_cons]
            exact List.mem_cons_of_mem _ (ih r hr')
      | err m =>
          rw [hc] at hr
          simp only [List.map_cons]
          exact List.mem_cons_of_mem _ (ih r hr)

/-- Claim C6. A batch job over three items whose second classifier call
returns an error ends with status `"completed"` and `processed = 3`,
and exactly two `job_results` rows exist for it: the per-item error
skips the row insert but still increments `processed` and never aborts
the batch (the job reaches its completed status regardless). -/
theorem batch_item_error_skips_row_but_counts (db : JobsDB)
    (jobId t1 t2 t3 n1 n2 n3 msg b1 b3 : String)
    (c1 c3 : ℚ) (d1 d3 : Bool) (j : BatchJob)
    (classify : String → ClassifyOutcome)
    (hj : db.batchJobs jobId = some j) (hp : j.processedImages = 0)
    (hr : rowsForJob db jobId = [])
    (h1 : classify t1 = .ok d1 c1 b1) (h2 : classify t2 = .err msg)
    (h3 : classify t3 = .ok d3 c3 b3) :
    (process_batch_job db jobId [(t1, n1), (t2, n2), (t3, n3)] classify).batchJobs jobId
      = some { j with status := "completed", processedImages := 3 } ∧
    (rowsForJob (process_batch_job db jobId [(t1, n1), (t2, n2), (t3, n3)] classify)
        jobId).length = 2 := by
  have hs := process_batch_job_spec db jobId [(t1, n1), (t2, n2), (t3, n3)] classify j hj hp
  refine ⟨by simpa using hs.1, ?_⟩
  have hrows : workerRows jobId classify [(t1, n1), (t2, n2), (t3, n3)]
      = [⟨jobId, n1, d1, c1, b1⟩, ⟨jobId, n3, d3, c3, b3⟩] := by
    simp [workerRows, h1, h2, h3]
  rw [rowsForJob, hs.2.2, List.filter_append]
  rw [rowsForJob] at hr
  rw [hr, hrows]
  simp

/-- Witness for `batch_item_error_skips_row_but_counts`: a concrete
3-item job whose middle classifier call errors completes with
`processed = 3` and two result rows. -/
theorem batch_item_error_witness :
    (process_batch_job (insertJob emptyDB "job"
        { status := "processing", totalImages := 3, processedImages := 0,
          errorMessage := none }) "job"
        [("t1", "a.jpg"), ("t2", "b.jpg"), ("t3", "c.jpg")]
        (fun s => if s = "t1" then .ok true 1 "[]"
                  else if s = "t2" then .err "boom"
                  else .ok false 0 "[]")).batchJobs "job"
      = some { status := "completed", totalImages := 3, processedImages := 3,
               errorMessage := none } ∧
    (rowsForJob (process_batch_job (insertJob emptyDB "job"
        { status := "processing", totalImages := 3, processedImages := 0,
          errorMessage := none }) "job"
        [("t1", "a.jpg"), ("t2", "b.jpg"), ("t3", "c.jpg")]
        (fun s => if s = "t1" then .ok true 1 "[]"
                  else if s = "t2" then .err "boom"
                  else .ok false 0 "[]")) "job").length = 2 :=
  batch_item_error_skips_row_but_counts
    (insertJob emptyDB "job"
      { status := "processing", totalImages := 3, processedImages := 0,
        errorMessage := none })
    "job" "t1" "t2" "t3" "a.jpg" "b.jpg" "c.jpg" "boom" "[]" "[]" 1 0 true false
    { status := "processing", totalImages := 3, processedImages := 0,
      errorMessage := none }
    (fun s => if s = "t1" then .ok true 1 "[]"
              else if s = "t2" then .err "boom"
              else .ok false 0 "[]")
    rfl rfl rfl rfl rfl rfl

theorem length_filter_lt_of_exists_not {α : Type} (p : α → Bool) (l : List α)
    (h : ∃ a ∈ l, p a = false) : (l.filter p).length < l.length := by
  induction l with
  | nil => rcases h with ⟨a, ha, _⟩; simp at ha
  | cons x t ih =>
      rcases h with ⟨a, ha, hpa⟩
      rcases List.mem_cons.mp ha with rfl | hat
      · have hle := List.length_filter_le p t
        simp [List.filter_cons, hpa]
        omega
      · by_cases hx : p x
        · have := ih ⟨a, hat, hpa⟩
          simp [List.filter_cons, hx]
          omega
        · have hle := List.length_filter_le p t
          simp [List.filter_cons, hx]
          omega

/-- Claim C10. A batch submission persists `total_images = len(files)`
counting every uploaded file, while only the `image/*` files are saved
for processing; the worker then completes the job with `processed`
equal to the number of image files, which never exceeds the total and
is strictly below it when a non-image file was uploaded; and every
result row's filename comes from an image file — the skipped non-image
files are never classified and never get a `job_results` row. -/
theorem nonimage_files_counted_in_total_but_skipped (db : JobsDB) (jobId : String)
    (files : List UploadFileM) (classify : String → ClassifyOutcome) (db1 : JobsDB)
    (temps : List (String × String)) (resp : SubmitResponse)
    (hsub : detect_batch_images db jobId files = .ok (db1, temps, resp))
    (hr : rowsForJob db jobId = []) :
    (process_batch_job db1 jobId temps classify).batchJobs jobId
      = some { status := "completed", totalImages := files.length,
               processedImages := (files.filter isImageFile).length,
               errorMessage := none } ∧
    (files.filter isImageFile).length ≤ files.length ∧
    ((∃ f ∈ files, isImageFile f = false) →
      (files.filter isImageFile).length < files.length) ∧
    (∀ r ∈ rowsForJob (process_batch_job db1 jobId temps classify) jobId,
      r.filename ∈ (files.filter isImageFile).map UploadFileM.filename) := by
  have hlen : ¬(files.length > 50) := by
    intro hgt
    simp [detect_batch_images, wrap500, hgt] at hsub
  rw [detect_batch_images] at hsub
  rw [if_neg hlen] at hsub
  simp only [wrap500, Except.ok.injEq, Prod.mk.injEq] at hsub
  obtain ⟨hdb1, htemps, -⟩ := hsub
  subst hdb1
  subst htemps
  have hj : (insertJob db jobId
      { status := "processing", totalImages := files.length, processedImages := 0,
        errorMessage := none }).batchJobs jobId
      = some { status := "processing", totalImages := files.length, processedImages := 0,
               errorMessage := none } := by
    simp [insertJob]
  have hs := process_batch_job_spec
    (insertJob db jobId
      { status := "processing", totalImages := files.length, processedImages := 0,
        errorMessage := none }) jobId
    ((files.filter isImageFile).map
      (fun f => (s!"temp_{jobId}_{f.filename}", f.filename))) classify
    { status := "processing", totalImages := files.length, processedImages := 0,
      errorMessage := none } hj rfl
  refine ⟨?_, List.length_filter_le _ _,
    fun hex => length_filter_lt_of_exists_not _ _ hex, ?_⟩
  · rw [hs.1]
    simp
  · intro r hrr
    rw [rowsForJob, hs.2.2] at hrr
    rw [List.filter_append] at hrr
    rcases List.mem_append.mp hrr with hl | hrgt
    · rw [rowsForJob] at hr
      rw [insertJob] at hl
      simp only at hl
      rw [hr] at hl
      simp at hl
    · have hmem := List.mem_of_mem_filter hrgt
      have := workerRows_filename_mem jobId classify _ r hmem
      rw [List.map_map] at this
      simpa using this

/-- Witness for `nonimage_files_counted_in_total_but_skipped`: one
image upload and one text upload; the submission persists total 2 and
the worker completes with `processed = 1`. -/
theorem nonimage_files_witness :
    (process_batch_job (insertJob emptyDB "job"
        { status := "processing", totalImages := 2, processedImages := 0,
          errorMessage := none }) "job" [("temp_job_a.jpg", "a.jpg")]
        (fun _ => .ok true 1 "[]")).batchJobs "job"
      = some { status := "completed",
               totalImages := ([⟨"a.jpg", "image/jpeg"⟩,
                 ⟨"b.txt", "text/plain"⟩] : List UploadFileM).length,
               processedImages := (([⟨"a.jpg", "image/jpeg"⟩,
                 ⟨"b.txt", "text/plain"⟩] : List UploadFileM).filter isImageFile).length,
               errorMessage := none } ∧
    (([⟨"a.jpg", "image/jpeg"⟩,
        ⟨"b.txt", "text/plain"⟩] : List UploadFileM).filter isImageFile).length
      ≤ ([⟨"a.jpg", "image/jpeg"⟩, ⟨"b.txt", "text/plain"⟩] : List UploadFileM).length ∧
    ((∃ f ∈ ([⟨"a.jpg", "image/jpeg"⟩, ⟨"b.txt", "text/plain"⟩] : List UploadFileM),
        isImageFile f = false) →
      (([⟨"a.jpg", "image/jpeg"⟩,
          ⟨"b.txt", "text/plain"⟩] : List UploadFileM).filter isImageFile).length
        < ([⟨"a.jpg", "image/jpeg"⟩, ⟨"b.txt", "text/plain"⟩] : List UploadFileM).length) ∧
    (∀ r ∈ rowsForJob (process_batch_job (insertJob emptyDB "job"
        { status := "processing", totalImages := 2, processedImages := 0,
          errorMessage := none }) "job" [("temp_job_a.jpg", "a.jpg")]
        (fun _ => .ok true 1 "[]")) "job",
      r.filename ∈ (([⟨"a.jpg", "image/jpeg"⟩,
        ⟨"b.txt", "text/plain"⟩] : List UploadFileM).filter isImageFile).map
          UploadFileM.filename) :=
  nonimage_files_counted_in_total_but_skipped emptyDB "job"
    [⟨"a.jpg", "image/jpeg"⟩, ⟨"b.txt", "text/plain"⟩] (fun _ => .ok true 1 "[]")
    (insertJob emptyDB "job"
      { status := "processing", totalImages := 2, processedImages := 0,
        errorMessage := none })
    [("temp_job_a.jpg", "a.jpg")] ⟨"job", "processing", 1⟩ rfl rfl

theorem get_job_results_of_some (db : JobsDB) (jobId : String) (j : BatchJob)
    (hj : db.batchJobs jobId = some j) :
    get_job_results db jobId = wrap500 (
      if j.status ≠ "completed" then .error ⟨400, "Job not completed yet"⟩
      else
        let rows := rowsForJob db jobId
        let totalDetected := (rows.filter (fun r => r.cigaretteDetected)).length
        .ok { jobId := jobId,
              results := rows.map (fun r =>
                { filename := r.filename, cigaretteDetected := r.cigaretteDetected,
                  maxConfidence := r.maxConfidence, detectionDetails := r.detectionDetails }),
              summary := { totalImages := rows.length,
                           imagesWithCigarettes := totalDetected,
                           detectionRate :=
                             if rows.isEmpty then 0
                             else (totalDetected : ℚ) / (rows.length : ℚ) * 100 } }) := by
  unfold get_job_results
  rw [hj]

/-- Claim C9. Whenever `GetResults` returns a response, the summary's
`detection_rate` equals `images_with_cigarettes / total_images * 100`,
and equals 0 when `total_images` is 0 (first conjunct); on a job whose
status is `"completed"` the call succeeds (second conjunct); on a job
whose status is `"processing"` it fails and returns no results (third
conjunct). -/
theorem results_rate_formula_and_processing_rejected (db : JobsDB) (jobId : String)
    (j : BatchJob) (hj : db.batchJobs jobId = some j) :
    (∀ resp, get_job_results db jobId = .ok resp →
      resp.summary.totalImages = (rowsForJob db jobId).length ∧
      resp.summary.imagesWithCigarettes
        = ((rowsForJob db jobId).filter (fun r => r.cigaretteDetected)).length ∧
      resp.summary.detectionRate =
        (if resp.summary.totalImages = 0 then 0
         else (resp.summary.imagesWithCigarettes : ℚ)
                / (resp.summary.totalImages : ℚ) * 100)) ∧
    (j.status = "completed" → (get_job_results db jobId).isOk = true) ∧
    (j.status = "processing" → (get_job_results db jobId).isOk = false) := by
  refine ⟨?_, ?_, ?_⟩
  · intro resp hresp
    rw [get_job_results_of_some db jobId j hj] at hresp
    by_cases hst : j.status = "completed"
    · simp only [hst, ne_eq, not_true_eq_false, if_false, ite_false, wrap500,
        Except.ok.injEq] at hresp
      · subst hresp
        refine ⟨rfl, rfl, ?_⟩
        simp only
        by_cases hrows : (rowsForJob db jobId).isEmpty
        · have hlen : (rowsForJob db jobId).length = 0 := by
            rwa [List.isEmpty_iff_length_eq_zero] at hrows
          simp [hrows, hlen]
        · have hlen : (rowsForJob db jobId).length ≠ 0 := by
            rw [List.isEmpty_iff_length_eq_zero] at hrows
            exact hrows
          simp [hrows, hlen]
    · rw [if_pos hst] at hresp
      simp [wrap500] at hresp
  · intro hst
    rw [get_job_results_of_some db jobId j hj]
    simp [hst, wrap500]
    rfl
  · intro hst
    rw [get_job_results_of_some db jobId j hj]
    have hne : j.status ≠ "completed" := by rw [hst]; decide
    simp [hne, wrap500]
    rfl

/-- Witness for `results_rate_formula_and_processing_rejected`: a
concrete completed job's results query succeeds and a concrete
still-processing job's results query fails. -/
theorem results_rate_witness :
    (get_job_results (addResultRow (addResultRow (insertJob emptyDB "j"
        { status := "completed", totalImages := 2, processedImages := 2,
          errorMessage := none })
        ⟨"j", "a.jpg", true, 1, "[]"⟩) ⟨"j", "b.jpg", false, 0, "[]"⟩) "j").isOk = true ∧
    (get_job_results (insertJob emptyDB "p"
        { status := "processing", totalImages := 1, processedImages := 0,
          errorMessage := none }) "p").isOk = false :=
  ⟨(results_rate_formula_and_processing_rejected
      (addResultRow (addResultRow (insertJob emptyDB "j"
        { status := "completed", totalImages := 2, processedImages := 2,
          errorMessage := none })
        ⟨"j", "a.jpg", true, 1, "[]"⟩) ⟨"j", "b.jpg", false, 0, "[]"⟩) "j"
      { status := "completed", totalImages := 2, processedImages := 2,
        errorMessage := none } rfl).2.1 rfl,
   (results_rate_formula_and_processing_rejected
      (insertJob emptyDB "p"
        { status := "processing", totalImages := 1, processedImages := 0,
          errorMessage := none }) "p"
      { status := "processing", totalImages := 1, processedImages := 0,
        errorMessage := none } rfl).2.2 rfl⟩

theorem runTicks_cooldown_invariant (ticks : List (ℚ × AnalyzeOutcome)) :
    ∀ (st : MonitorState) (dir : List ScreenFile), 0 ≤ st.detectionCooldown →
      List.Pairwise (fun a b => a + st.detectionCooldown ≤ b) (alertTimes st dir ticks) ∧
      ∀ a ∈ alertTimes st dir ticks, st.lastDetectionTime + st.detectionCooldown ≤ a := by
  induction ticks with
  | nil => intro st dir _; simp [alertTimes, runTicks]
  | cons td rest ih =>
      obtain ⟨now, o⟩ := td
      intro st dir hcd
      by_cases hc : now - st.lastDetectionTime < st.detectionCooldown
      · have he : analyzeScreenshot st dir now o = (st, dir, none) := by
          simp [analyzeScreenshot, hc]
        have halerts : alertTimes st dir ((now, o) :: rest) = alertTimes st dir rest := by
          simp [alertTimes, runTicks, he]
        rw [halerts]
        exact ih st dir hcd
      · have hlast : st.lastDetectionTime + st.detectionCooldown ≤ now := by
          rw [not_lt] at hc
          linarith
        cases o with
        | err m =>
            have he : analyzeScreenshot st dir now (.err m)
                = (st, removeFile (writeFile dir
                    ⟨st.sessionId, now, sessionScreenshotName st.sessionId now⟩)
                    (sessionScreenshotName st.sessionId now), none) := by
              simp [analyzeScreenshot, hc]
            have halerts : alertTimes st dir ((now, .err m) :: rest)
                = alertTimes st (removeFile (writeFile dir
                    ⟨st.sessionId, now, sessionScreenshotName st.sessionId now⟩)
                    (sessionScreenshotName st.sessionId now)) rest := by
              simp [alertTimes, runTicks, he]
            rw [halerts]
            exact ih st _ hcd
        | noResult =>
            have he : analyzeScreenshot st dir now .noResult
                = (st, removeFile (writeFile dir
                    ⟨st.sessionId, now, sessionScreenshotName st.sessionId now⟩)
                    (sessionScreenshotName st.sessionId now), none) := by
              simp [analyzeScreenshot, hc]
            have halerts : alertTimes st dir ((now, .noResult) :: rest)
                = alertTimes st (removeFile (writeFile dir
                    ⟨st.sessionId, now, sessionScreenshotName st.sessionId now⟩)
                    (sessionScreenshotName st.sessionId now)) rest := by
              simp [alertTimes, runTicks, he]
            rw [halerts]
            exact ih st _ hcd
        | ok r =>
            by_cases hm : (r.smokingDetected || r.vapingDetected) = true
            · have he : analyzeScreenshot st dir now (.ok r)
                  = ({ st with lastDetectionTime := now },
                     cleanup_old_screenshots st.sessionId st.maxScreenshots
                       (writeFile dir
                         ⟨st.sessionId, now, sessionScreenshotName st.sessionId now⟩),
                     some { msgType := "detection",
                            label := "Vaping and Smoking Detection",
                            detectionType := detectionTypeString r,
                            maxConfidence := r.maxConfidence, timestamp := now,
                            screenshotPath := sessionScreenshotName st.sessionId now }) := by
                simp [analyzeScreenshot, hc, hm]
              have halerts : alertTimes st dir ((now, .ok r) :: rest)
                  = now :: alertTimes { st with lastDetectionTime := now }
                      (cleanup_old_screenshots st.sessionId st.maxScreenshots
                        (writeFile dir
                          ⟨st.sessionId, now, sessionScreenshotName st.sessionId now⟩)) rest := by
                simp [alertTimes, runTicks, he]
              rw [halerts]
              obtain ⟨hpw, hlb⟩ := ih { st with lastDetectionTime := now }
                (cleanup_old_screenshots st.sessionId st.maxScreenshots
                  (writeFile dir
                    ⟨st.sessionId, now, sessionScreenshotName st.sessionId now⟩)) hcd
              constructor
              · rw [List.pairwise_cons]
                exact ⟨fun a ha => by have := hlb a ha; simpa using by linarith [hlb a ha], hpw⟩
              · intro a ha
                rcases List.mem_cons.mp ha with rfl | hat
                · exact hlast
                · have := hlb a hat
                  simp only at this
                  linarith
            · have he : analyzeScreenshot st dir now (.ok r)
                  = ({ st with lastDetectionTime := now },
                     removeFile (writeFile dir
                       ⟨st.sessionId, now, sessionScreenshotName st.sessionId now⟩)
                       (sessionScreenshotName st.sessionId now), none) := by
                simp [analyzeScreenshot, hc, hm]
              have halerts : alertTimes st dir ((now, .ok r) :: rest)
                  = alertTimes { st with lastDetectionTime := now }
                      (removeFile (writeFile dir
                        ⟨st.sessionId, now, sessionScreenshotName st.sessionId now⟩)
                        (sessionScreenshotName st.sessionId now)) rest := by
                simp [alertTimes, runTicks, he]
              rw [halerts]
              obtain ⟨hpw, hlb⟩ := ih { st with lastDetectionTime := now } _ hcd
              refine ⟨hpw, fun a ha => ?_⟩
              have := hlb a ha
              simp only at this
              linarith

theorem cooldown_scenario_aux (T : ℚ) (hT : 30 ≤ T) (dir : List ScreenFile) (sid : Nat) :
    alertTimes (startedMonitor sid) dir
      [(T, positiveOutcome), (T + 10, positiveOutcome)] = [T] ∧
    alertTimes (startedMonitor sid) dir
      [(T, positiveOutcome), (T + 10, positiveOutcome), (T + 35, positiveOutcome)]
      = [T, T + 35] := by
  have h1 : ¬(T < (30:ℚ)) := by linarith
  constructor <;>
    norm_num [alertTimes, runTicks, analyzeScreenshot, startedMonitor, initMonitor,
      positiveOutcome, h1]

/-- Claim C5. Two conjuncts.  General law: along any trace of analyzed
ticks, the timestamps of the promoted alerts of a session are pairwise
separated by at least the session's cooldown — each promotion requires
`now - last_detection_time >= cooldown` and every completed analysis
only moves `last_detection_time` forward.  Scenario: a session with
cooldown 30 whose ticks at times T and T+10 both classify positive
publishes exactly one alert (at T), and a third positive tick at T+35
publishes a second alert. -/
theorem cooldown_separates_alerts :
    (∀ (st : MonitorState) (dir : List ScreenFile)
        (ticks : List (ℚ × AnalyzeOutcome)), 0 ≤ st.detectionCooldown →
        List.Pairwise (fun a b => a + st.detectionCooldown ≤ b)
          (alertTimes st dir ticks)) ∧
    (∀ (T : ℚ), 30 ≤ T → ∀ (dir : List ScreenFile) (sid : Nat),
        alertTimes (startedMonitor sid) dir
          [(T, positiveOutcome), (T + 10, positiveOutcome)] = [T] ∧
        alertTimes (startedMonitor sid) dir
          [(T, positiveOutcome), (T + 10, positiveOutcome), (T + 35, positiveOutcome)]
          = [T, T + 35]) :=
  ⟨fun st dir ticks h => (runTicks_cooldown_invariant ticks st dir h).1,
   fun T hT dir sid => cooldown_scenario_aux T hT dir sid⟩

/-- Witness for `cooldown_separates_alerts` at session 7 starting at
wall-clock time 1000: positive ticks at 1000, 1010 and 1035 produce
alerts exactly at 1000 and 1035, pairwise separated by the cooldown. -/
theorem cooldown_separates_witness :
    List.Pairwise (fun a b => a + (startedMonitor 7).detectionCooldown ≤ b)
      (alertTimes (startedMonitor 7) []
        [(1000, positiveOutcome), (1010, positiveOutcome)]) ∧
    alertTimes (startedMonitor 7) []
      [(1000, positiveOutcome), (1000 + 10, positiveOutcome),
        (1000 + 35, positiveOutcome)] = [1000, 1000 + 35] :=
  ⟨cooldown_separates_alerts.1 (startedMonitor 7) []
      [(1000, positiveOutcome), (1010, positiveOutcome)]
      (by norm_num [startedMonitor, initMonitor]),
   (cooldown_separates_alerts.2 1000 (by norm_num) [] 7).2⟩

/-- Claim C7. After a retention cleanup pass for a session completes,
the number of that session's retained screenshot files never exceeds
the configured bound `maxS` (the monitor's `max_screenshots`, default
5): the pass collects the session's files, orders them newest first,
keeps exactly the first `maxS` of that ordering (second conjunct: the
retained session files are a permutation of that newest-first prefix)
and deletes the rest; each deletion tolerates an already-removed file
without raising (`removeFile`/`cleanup_old_screenshots` are total, and
a missing path is a no-op by definition).  Directory file names are
unique (`hnd`), as for a real directory listing. -/
theorem cleanup_bounds_retained_artifacts (sid maxS : Nat) (dir : List ScreenFile)
    (hnd : (dir.map ScreenFile.path).Nodup) :
    ((cleanup_old_screenshots sid maxS dir).filter (fun f => f.sessionId == sid)).length
      ≤ maxS ∧
    ((cleanup_old_screenshots sid maxS dir).filter (fun f => f.sessionId == sid)).Perm
      (((dir.filter (fun f => f.sessionId == sid)).insertionSort newestFirst).take maxS) := by
  have hperm : ((dir.filter (fun f => f.sessionId == sid)).insertionSort newestFirst).Perm
      (dir.filter (fun f => f.sessionId == sid)) := List.perm_insertionSort _ _
  have hndf : ((dir.filter (fun f => f.sessionId == sid)).map ScreenFile.path).Nodup :=
    hnd.sublist ((List.filter_sublist _).map _)
  have hnds : (((dir.filter (fun f => f.sessionId == sid)).insertionSort
      newestFirst).map ScreenFile.path).Nodup :=
    ((hperm.map _).nodup_iff).mpr hndf
  unfold cleanup_old_screenshots
  by_cases hgt : ((dir.filter (fun f => f.sessionId == sid)).insertionSort
      newestFirst).length > maxS
  · rw [if_pos hgt]
    set sorted := (dir.filter (fun f => f.sessionId == sid)).insertionSort newestFirst
      with hsorted
    set q : ScreenFile → Bool :=
      fun f => !(((sorted.drop maxS).map (fun f => f.path)).contains f.path) with hq
    have hff : (dir.filter q).filter (fun f => f.sessionId == sid)
        = (dir.filter (fun f => f.sessionId == sid)).filter q := by
      rw [List.filter_filter, List.filter_filter]
      apply List.filter_congr
      intro f _
      exact Bool.and_comm _ _
    rw [hff]
    have hsplit : sorted.take maxS ++ sorted.drop maxS = sorted :=
      List.take_append_drop _ _
    have hnd2 : ((sorted.map ScreenFile.path).take maxS
        ++ (sorted.map ScreenFile.path).drop maxS).Nodup := by
      rw [List.take_append_drop]
      exact hnds
    have hdisj : ∀ f ∈ sorted.take maxS,
        f.path ∉ (sorted.map ScreenFile.path).drop maxS := by
      intro f hf
      apply List.disjoint_of_nodup_append hnd2
      rw [← List.map_take]
      exact List.mem_map_of_mem _ hf
    have htake : (sorted.take maxS).filter q = sorted.take maxS := by
      rw [List.filter_eq_self]
      intro f hf
      simp only [hq]
      simp [List.contains_iff_exists_mem_beq]
      exact hdisj f hf
    have hdrop : (sorted.drop maxS).filter q = [] := by
      rw [List.filter_eq_nil_iff]
      intro f hf
      simp [hq, List.contains_iff_exists_mem_beq]
      rw [← List.map_drop]
      exact List.mem_map_of_mem _ hf
    have hfq : sorted.filter q = sorted.take maxS := by
      conv in sorted.filter q => rw [← hsplit]
      rw [List.filter_append, htake, hdrop, List.append_nil]
    have hpq : ((dir.filter (fun f => f.sessionId == sid)).filter q).Perm
        (sorted.take maxS) := by
      have hpf := hperm.symm.filter q
      rw [hfq] at hpf
      exact hpf
    refine ⟨?_, hpq⟩
    rw [hpq.length_eq, List.length_take]
    omega
  · rw [if_neg hgt]
    have hlen : (dir.filter (fun f => f.sessionId == sid)).length ≤ maxS := by
      have := List.length_insertionSort newestFirst
        (dir.filter (fun f => f.sessionId == sid))
      omega
    have htake : ((dir.filter (fun f => f.sessionId == sid)).insertionSort
        newestFirst).take maxS
        = (dir.filter (fun f => f.sessionId == sid)).insertionSort newestFirst := by
      apply List.take_of_length_le
      omega
    rw [htake]
    exact ⟨by simpa using hlen, hperm.symm⟩

/-- Witness for `cleanup_bounds_retained_artifacts`: seven session-1
screenshots plus one file of another session; after cleanup at most 5
session-1 files remain, exactly the newest five. -/
theorem cleanup_bounds_witness :
    ((cleanup_old_screenshots 1 5
        [⟨1, 1, "a"⟩, ⟨1, 2, "b"⟩, ⟨1, 3, "c"⟩, ⟨1, 4, "d"⟩, ⟨1, 5, "e"⟩,
         ⟨1, 6, "f"⟩, ⟨1, 7, "g"⟩, ⟨2, 9, "h"⟩]).filter
        (fun f => f.sessionId == 1)).length ≤ 5 ∧
    ((cleanup_old_screenshots 1 5
        [⟨1, 1, "a"⟩, ⟨1, 2, "b"⟩, ⟨1, 3, "c"⟩, ⟨1, 4, "d"⟩, ⟨1, 5, "e"⟩,
         ⟨1, 6, "f"⟩, ⟨1, 7, "g"⟩, ⟨2, 9, "h"⟩]).filter
        (fun f => f.sessionId == 1)).Perm
      (List.take 5 (List.insertionSort newestFirst
        (List.filter (fun f => f.sessionId == 1)
          ([⟨1, 1, "a"⟩, ⟨1, 2, "b"⟩, ⟨1, 3, "c"⟩, ⟨1, 4, "d"⟩, ⟨1, 5, "e"⟩,
            ⟨1, 6, "f"⟩, ⟨1, 7, "g"⟩, ⟨2, 9, "h"⟩] : List ScreenFile)))) :=
  cleanup_bounds_retained_artifacts 1 5
    [⟨1, 1, "a"⟩, ⟨1, 2, "b"⟩, ⟨1, 3, "c"⟩, ⟨1, 4, "d"⟩, ⟨1, 5, "e"⟩,
     ⟨1, 6, "f"⟩, ⟨1, 7, "g"⟩, ⟨2, 9, "h"⟩] (by decide)

theorem foldl_hubDisconnect_spec :
    ∀ (stale : List Nat) (conns : List Nat), conns.Nodup →
      (stale.foldl hubDisconnect ⟨conns⟩).connections
        = conns.filter (fun ws => !(stale.contains ws)) := by
  intro stale
  induction stale with
  | nil =>
      intro conns _
      simp [List.foldl_nil]
  | cons s rest ih =>
      intro conns h
      rw [List.foldl_cons]
      by_cases hs : s ∈ conns
      · have hd : hubDisconnect ⟨conns⟩ s = ⟨conns.erase s⟩ := by
          simp [hubDisconnect, hs]
        rw [hd, ih _ (h.erase s)]
        rw [List.Nodup.erase_eq_filter h s]
        rw [List.filter_filter]
        apply List.filter_congr
        intro ws _
        by_cases hws : ws = s
        · subst hws
          simp
        · simp [hws, bne_iff_ne, List.contains_cons]
      · have hd : hubDisconnect ⟨conns⟩ s = ⟨conns⟩ := by
          simp [hubDisconnect, hs]
        rw [hd, ih _ h]
        apply List.filter_congr
        intro ws hws
        have hne : ws ≠ s := fun he => hs (he ▸ hws)
        simp [hne, List.contains_cons]

theorem contains_filter_eq (conns : List Nat) (p : Nat → Bool) (ws : Nat)
    (hws : ws ∈ conns) : (conns.filter p).contains ws = p ws := by
  by_cases hp : p ws
  · rw [hp]
    simp [List.contains_iff_exists_mem_beq]
    exact ⟨hws, hp⟩
  · rw [Bool.eq_false_iff.mpr hp]
    simp [List.contains_iff_exists_mem_beq, List.mem_filter]
    intro _
    exact Bool.eq_false_iff.mpr hp

/-- Claim C8. For every broadcast: the alert is delivered to exactly
the subscribers whose send succeeded (first conjunct), the subscribers
whose delivery failed are removed from the connection set while all
others remain (second conjunct), a failing subscriber never prevents
delivery to any other current subscriber (third conjunct), and a
subsequent publish still reaches every remaining subscriber (fourth
conjunct).  The send-loop failures are caught per subscriber inside
`broadcast`, so nothing is surfaced to the publisher — `broadcast` and
`broadcast_from_thread` are total functions returning normally. -/
theorem failed_subscriber_removed_others_delivered (h : AlertHub) (fails fails2 : Nat → Bool) (hnd : h.connections.Nodup) :
    (broadcast h fails).2 = h.connections.filter (fun ws => !(fails ws)) ∧
    (broadcast h fails).1.connections = h.connections.filter (fun ws => !(fails ws)) ∧
    (∀ ws ∈ h.connections, fails ws = false → ws ∈ (broadcast h fails).2) ∧
    (∀ ws ∈ h.connections, fails ws = false → fails2 ws = false →
        ws ∈ (broadcast (broadcast h fails).1 fails2).2) := by
  have hdeliv : (broadcast h fails).2 = h.connections.filter (fun ws => !(fails ws)) := rfl
  have hfold : (broadcast h fails).1.connections
      = h.connections.filter (fun ws => !((h.connections.filter fails).contains ws)) :=
    foldl_hubDisconnect_spec (h.connections.filter fails) h.connections hnd
  have hconns : (broadcast h fails).1.connections
      = h.connections.filter (fun ws => !(fails ws)) := by
    rw [hfold]
    apply List.filter_congr
    intro ws hws
    rw [contains_filter_eq h.connections fails ws hws]
  refine ⟨hdeliv, hconns, ?_, ?_⟩
  · intro ws hws hf
    rw [hdeliv]
    exact List.mem_filter.mpr ⟨hws, by simp [hf]⟩
  · intro ws hws hf hf2
    have hws' : ws ∈ (broadcast h fails).1.connections := by
      rw [hconns]
      exact List.mem_filter.mpr ⟨hws, by simp [hf]⟩
    have hdeliv2 : (broadcast (broadcast h fails).1 fails2).2
        = (broadcast h fails).1.connections.filter (fun ws => !(fails2 ws)) := rfl
    rw [hdeliv2]
    exact List.mem_filter.mpr ⟨hws', by simp [hf2]⟩

/-- Witness for `failed_subscriber_removed_others_delivered`:
subscriber 2 of three fails; 1 and 3 still receive the alert, 2 is
removed, and a second publish reaches subscriber 1. -/
theorem failed_subscriber_witness :
    (broadcast ⟨[1, 2, 3]⟩ (fun ws => ws == 2)).2 = [1, 3] ∧
    (broadcast ⟨[1, 2, 3]⟩ (fun ws => ws == 2)).1.connections = [1, 3] ∧
    1 ∈ (broadcast (broadcast ⟨[1, 2, 3]⟩ (fun ws => ws == 2)).1 (fun _ => false)).2 := by
  have hmain := failed_subscriber_removed_others_delivered ⟨[1, 2, 3]⟩ (fun ws => ws == 2) (fun _ => false) (by decide)
  refine ⟨by rw [hmain.1]; rfl, by rw [hmain.2.1]; rfl,
    hmain.2.2.2 1 (by decide) (by decide) rfl⟩

end Escvape
